import Mathlib

/-!
Verification of the Trident storage orchestrator against its natural-language
specification.  The development shallowly embeds the relevant Go source:

* `src/frontend/csi/plugin.go` — the CSI frontend (`Plugin.CreateVolume`,
  `getAccessForCSIAccessMode`, `getProtocolForCSIAccessMode`);
* the passthrough persistence client (`PassthroughClient`);
* the orchestrator core, whose implementation file is absent from the source
  tree (only its tests are present); where a definition models the core we say
  so in its doc comment, following the specification text.

Go maps iterated in tests with fixed expectations are modelled as association
lists; goroutine fan-outs are modelled by their sequential linearization.
-/

namespace Trident

/-- Protocols recognized by the orchestrator (`config.Protocol` in Go):
`File`, `Block`, and the wildcard `ProtocolAny`. -/
inductive Protocol where
  | file
  | block
  | protocolAny
deriving DecidableEq, Repr

/-- Trident access modes (`config.AccessMode` in Go): `ReadWriteOnce`,
`ReadOnlyMany`, `ReadWriteMany`, and the wildcard `ModeAny`. -/
inductive AccessMode where
  | readWriteOnce
  | readOnlyMany
  | readWriteMany
  | modeAny
deriving DecidableEq, Repr

/-- CSI volume-capability access modes
(`csi.VolumeCapability_AccessMode_Mode`).  `unknownMode` stands for any value
outside the five named constants (the `default` arm of the Go switches). -/
inductive CSIAccessMode where
  | singleNodeWriter
  | singleNodeReaderOnly
  | multiNodeReaderOnly
  | multiNodeSingleWriter
  | multiNodeMultiWriter
  | unknownMode
deriving DecidableEq, Repr

/-- Error kinds surfaced by the orchestrator core, as consumed by the CSI
frontend (`core.IsNotReadyError`, `core.IsBootstrapError`,
`core.IsNotFoundError`, plus the generic case). -/
inductive OrchError where
  | notReady
  | bootstrapErr (msg : String)
  | notFound (name : String)
  | keyNotFound (name : String)
  | invalidInput (msg : String)
  | inProgress (name : String)
  | otherErr (msg : String)
deriving DecidableEq, Repr

/-- gRPC status codes used by the CSI plugin. -/
inductive GrpcCode where
  | invalidArgument
  | alreadyExists
  | notFoundCode
  | unavailable
  | failedPrecondition
  | internalErr
  | unknownCode
deriving DecidableEq, Repr

/-- A gRPC status error as returned by `status.Error(code, msg)`. -/
structure GrpcError where
  code : GrpcCode
  msg : String
deriving DecidableEq, Repr

/-- Volume configuration (`storage.VolumeConfig`).  The Go struct stores
`Size` as a decimal string which the plugin parses with
`strconv.ParseInt(..., 10, 64)`, ignoring the error (failed parses read as
`0`); the model carries the parsed value directly. -/
structure VolumeConfig where
  name : String
  internalName : String
  size : Int
  protocol : Protocol
  accessMode : AccessMode
  fileSystem : String
  storageClass : String
  cloneSourceVolume : String
deriving DecidableEq, Repr

/-- Externalized volume (`storage.VolumeExternal`): the config plus the name
of the backend the volume lives on. -/
structure VolumeExternal where
  config : VolumeConfig
  backend : String
deriving DecidableEq, Repr

/-- Externalized backend (`storage.BackendExternal`), reduced to the fields
the CSI plugin reads (`b.Protocol` in `hasBackendForProtocol`). -/
structure BackendExternal where
  name : String
  protocol : Protocol
deriving DecidableEq, Repr

namespace CSI

/-- `Plugin.getAccessForCSIAccessMode` from `src/frontend/csi/plugin.go`:
maps a CSI access mode to a Trident access mode. -/
def getAccessForCSIAccessMode (accessMode : CSIAccessMode) : AccessMode :=
  match accessMode with
  | .singleNodeWriter => .readWriteOnce
  | .singleNodeReaderOnly => .readWriteOnce
  | .multiNodeReaderOnly => .readOnlyMany
  | .multiNodeSingleWriter => .readWriteMany
  | .multiNodeMultiWriter => .readWriteMany
  | .unknownMode => .modeAny

/-- `Plugin.getProtocolForCSIAccessMode` from `src/frontend/csi/plugin.go`:
maps a CSI access mode to a required protocol.  Only
`MULTI_NODE_MULTI_WRITER` requires `File`; every other arm returns
`ProtocolAny`. -/
def getProtocolForCSIAccessMode (accessMode : CSIAccessMode) : Protocol :=
  match accessMode with
  | .singleNodeWriter => .protocolAny
  | .singleNodeReaderOnly => .protocolAny
  | .multiNodeReaderOnly => .protocolAny
  | .multiNodeSingleWriter => .protocolAny
  | .multiNodeMultiWriter => .file
  | .unknownMode => .protocolAny

end CSI

/-- `core.IsNotFoundError`: recognizes the core's not-found error kind. -/
def OrchError.isNotFoundError : OrchError → Bool
  | .notFound _ => true
  | _ => false

/-- Error message carried by an orchestrator error (`err.Error()` in Go).
The exact strings are irrelevant to the claims. -/
def OrchError.message : OrchError → String
  | .notReady => "not ready"
  | .bootstrapErr m => m
  | .notFound n => "not found " ++ n
  | .keyNotFound n => "unable to find key " ++ n
  | .invalidInput m => m
  | .inProgress n => "transaction in progress for " ++ n
  | .otherErr m => m

/-- String form of a protocol (`config.Protocol` constant values). -/
def Protocol.goString : Protocol → String
  | .file => "file"
  | .block => "block"
  | .protocolAny => ""

namespace CSI

/-- The CSI volume-capability access type: the `oneof` of
`csi.VolumeCapability_Mount` (carrying `FsType`) and
`csi.VolumeCapability_Block`.  `GetBlock()` is non-nil exactly on
`blockAccess`, `GetMount()` exactly on `mountAccess`. -/
inductive AccessType where
  | mountAccess (fsType : String)
  | blockAccess
deriving DecidableEq, Repr

/-- A requested volume capability (`csi.VolumeCapability`). -/
structure VolumeCapability where
  accessType : AccessType
  accessMode : CSIAccessMode
deriving DecidableEq, Repr

/-- `csi.CapacityRange`, reduced to the field the plugin reads. -/
structure CapacityRange where
  requiredBytes : Int
deriving DecidableEq, Repr

/-- `csi.CreateVolumeRequest`, reduced to the fields the plugin reads.
`capabilities = none` models a nil `VolumeCapabilities` slice. -/
structure CreateVolumeRequest where
  name : String
  capabilities : Option (List VolumeCapability)
  capacityRange : Option CapacityRange
  params : List (String × String)
deriving DecidableEq, Repr

/-- The `csi.Volume` built by `getCSIVolumeFromTridentVolume`. -/
structure CSIVolume where
  capacityBytes : Int
  volumeId : String
  volumeContext : List (String × String)
deriving DecidableEq, Repr

/-- The orchestrator surface consumed by `Plugin.CreateVolume`, modelled as a
record of response functions: `GetVolume`, `ListBackends` (read by
`hasBackendForProtocol`), `frontendcommon.GetStorageClass` (reduced to the
name of the class it finds or registers; its implementation is outside the
source tree), `frontendcommon.GetVolumeConfig` (likewise outside the source
tree), and `AddVolume`. -/
structure OrchestratorAPI where
  getVolume : String → Except OrchError VolumeExternal
  listBackends : Except OrchError (List BackendExternal)
  getStorageClassName : List (String × String) → Except Unit String
  mkVolumeConfig :
    String → String → Int → Protocol → AccessMode → Except OrchError VolumeConfig
  addVolume : VolumeConfig → Except OrchError VolumeExternal

/-- `Plugin.getCSIErrorForOrchestratorError` from
`src/frontend/csi/plugin.go`. -/
def getCSIErrorForOrchestratorError (e : OrchError) : GrpcError :=
  match e with
  | .notReady => ⟨.unavailable, OrchError.message .notReady⟩
  | .bootstrapErr m => ⟨.failedPrecondition, OrchError.message (.bootstrapErr m)⟩
  | .notFound n => ⟨.notFoundCode, OrchError.message (.notFound n)⟩
  | e => ⟨.unknownCode, e.message⟩

/-- `Plugin.hasBackendForProtocol` from `src/frontend/csi/plugin.go`. -/
def hasBackendForProtocol (o : OrchestratorAPI) (protocol : Protocol) : Bool :=
  match o.listBackends with
  | .error _ => false
  | .ok backends =>
    if backends.isEmpty then false
    else if protocol = .protocolAny then true
    else backends.any fun b =>
      b.protocol == .protocolAny || b.protocol == protocol

/-- `Plugin.getCSIVolumeFromTridentVolume` from `src/frontend/csi/plugin.go`
(the size string is already held parsed in the model, so the parse-failure
branch that warns and reports capacity 0 does not arise). -/
def getCSIVolumeFromTridentVolume (v : VolumeExternal) : CSIVolume where
  capacityBytes := v.config.size
  volumeId := v.config.name
  volumeContext :=
    [("backend", v.backend),
     ("name", v.config.name),
     ("internalName", v.config.internalName),
     ("protocol", v.config.protocol.goString)]

/-- `int64(req.GetCapacityRange().GetRequiredBytes())`: a nil capacity range
reads as 0. -/
def requiredBytes (req : CreateVolumeRequest) : Int :=
  match req.capacityRange with
  | none => 0
  | some r => r.requiredBytes

/-- The capability loop of `Plugin.CreateVolume`
(`src/frontend/csi/plugin.go` lines 318-339): for each requested capability,
reject block access types with InvalidArgument, map the access mode to a
Trident access mode and protocol (each iteration overwrites the previous),
reject with InvalidArgument when no backend serves the protocol, and record
the mount capability's fsType. -/
def capLoop (o : OrchestratorAPI) :
    List VolumeCapability → Protocol × AccessMode × String →
      Except GrpcError (Protocol × AccessMode × String)
  | [], acc => .ok acc
  | cap :: rest, _acc =>
    match cap.accessType with
    | .blockAccess => .error ⟨.invalidArgument, "block access type not supported"⟩
    | .mountAccess fsType =>
      let am := getAccessForCSIAccessMode cap.accessMode
      let pr := getProtocolForCSIAccessMode cap.accessMode
      if hasBackendForProtocol o pr then
        capLoop o rest (pr, am, fsType)
      else
        .error ⟨.invalidArgument, "no available storage for access mode"⟩

/-- Result of `Plugin.CreateVolume` together with two effect flags recording
whether control reached the storage-class lookup
(`frontendcommon.GetStorageClass`, line 342) and whether
`orchestrator.AddVolume` (line 365) was invoked. -/
structure CreateVolumeResult where
  outcome : Except GrpcError CSIVolume
  scLookupReached : Bool
  addVolumeCalled : Bool
deriving Repr

/-- `Plugin.CreateVolume` from `src/frontend/csi/plugin.go` (lines 269-376):
argument checks; pre-existing-volume check with idempotent return or
AlreadyExists on size conflict; the capability loop; storage-class lookup;
volume-config construction; and finally `AddVolume`. -/
def CreateVolume (o : OrchestratorAPI) (req : CreateVolumeRequest) :
    CreateVolumeResult :=
  if req.name.length = 0 then
    ⟨.error ⟨.invalidArgument, "volume name missing in request"⟩, false, false⟩
  else
    match req.capabilities with
    | none =>
      ⟨.error ⟨.invalidArgument, "volume capabilities missing in request"⟩,
        false, false⟩
    | some caps =>
      match o.getVolume req.name with
      | .ok existingVolume =>
        if existingVolume.config.size < requiredBytes req then
          ⟨.error ⟨.alreadyExists,
            "volume " ++ req.name ++ " but with different size already exists"⟩,
            false, false⟩
        else
          ⟨.ok (getCSIVolumeFromTridentVolume existingVolume), false, false⟩
      | .error e =>
        if e.isNotFoundError then
          match capLoop o caps (.protocolAny, .modeAny, "") with
          | .error g => ⟨.error g, false, false⟩
          | .ok (protocol, accessMode, fileSystem) =>
            match o.getStorageClassName req.params with
            | .error _ =>
              ⟨.error ⟨.invalidArgument,
                "could not create a storage class from volume request"⟩,
                true, false⟩
            | .ok scName =>
              match o.mkVolumeConfig req.name scName (requiredBytes req)
                  protocol accessMode with
              | .error e2 =>
                ⟨.error (getCSIErrorForOrchestratorError e2), true, false⟩
              | .ok volConfig0 =>
                let volConfig :=
                  if volConfig0.fileSystem = "" then
                    { volConfig0 with fileSystem := fileSystem }
                  else volConfig0
                match o.addVolume volConfig with
                | .error e3 =>
                  ⟨.error (getCSIErrorForOrchestratorError e3), true, true⟩
                | .ok newVolume =>
                  ⟨.ok (getCSIVolumeFromTridentVolume newVolume), true, true⟩
        else
          ⟨.error (getCSIErrorForOrchestratorError e), false, false⟩

end CSI

namespace Passthrough

/-- `storage.VolumeExternalWrapper`: an item streamed by
`Driver.GetVolumeExternalWrappers` — either a discovered volume or a
per-item error. -/
structure VolumeExternalWrapper where
  volume : Option VolumeExternal
  wrapError : Option String
deriving DecidableEq, Repr

/-- The slice of the Driver capability the passthrough client consumes:
`GetVolumeExternalWrappers(chan)` streams wrappers into a channel; the model
holds the streamed sequence as a list. -/
structure Driver where
  wrappers : List VolumeExternalWrapper
deriving DecidableEq, Repr

/-- `storage.Backend` as used by the passthrough client: a name and a
driver. -/
structure Backend where
  name : String
  driver : Driver
deriving DecidableEq, Repr

/-- `storage.BackendPersistent`: the persistent backend object built from a
config file at initialization, reduced to the fields the claims observe. -/
structure BackendPersistent where
  name : String
  configJSON : String
deriving DecidableEq, Repr

/-- Persistent-store errors (`persistent_store.NewPersistentStoreError`). -/
inductive StoreError where
  | keyNotFoundErr (key : String)
  | notSupported
deriving DecidableEq, Repr

/-- `PassthroughClient` state: `liveBackends` is the Go map
`map[string]*storage.Backend` (modelled as an association list in insertion
order), `bootBackends` the slice of persistent backends read from the config
files at initialization. -/
structure PassthroughClient where
  liveBackends : List (String × Backend)
  bootBackends : List BackendPersistent
deriving DecidableEq, Repr

/-- Assignment `m[k] = v` on a Go map modelled as an association list:
replace the binding if the key is present, else append it. -/
def mapInsert (m : List (String × Backend)) (k : String) (v : Backend) :
    List (String × Backend) :=
  if m.any (fun p => p.1 == k) then
    m.map fun p => if p.1 == k then (k, v) else p
  else
    m ++ [(k, v)]

/-- `PassthroughClient.GetBackends` (`src/unnamed/part_000` lines 515-524):
returns a copy of the `bootBackends` slice read from the config files, with
no error. -/
def GetBackends (c : PassthroughClient) :
    List BackendPersistent × Option StoreError :=
  (c.bootBackends.foldl (fun acc b => acc ++ [b]) [], none)

/-- `PassthroughClient.AddBackend` (lines 462-471): stores the backend in
`liveBackends` only. -/
def AddBackend (c : PassthroughClient) (b : Backend) :
    PassthroughClient × Option StoreError :=
  ({ c with liveBackends := mapInsert c.liveBackends b.name b }, none)

/-- `PassthroughClient.UpdateBackend` (lines 483-492): replaces the
`liveBackends` entry, failing with KeyNotFound when absent. -/
def UpdateBackend (c : PassthroughClient) (b : Backend) :
    PassthroughClient × Option StoreError :=
  if c.liveBackends.any (fun p => p.1 == b.name) then
    ({ c with liveBackends := mapInsert c.liveBackends b.name b }, none)
  else
    (c, some (.keyNotFoundErr b.name))

/-- `PassthroughClient.DeleteBackend` (lines 494-502): removes the
`liveBackends` entry, failing with KeyNotFound when absent. -/
def DeleteBackend (c : PassthroughClient) (b : Backend) :
    PassthroughClient × Option StoreError :=
  if c.liveBackends.any (fun p => p.1 == b.name) then
    ({ c with liveBackends := c.liveBackends.filter fun p => p.1 != b.name },
      none)
  else
    (c, some (.keyNotFoundErr b.name))

/-- `PassthroughClient.DeleteBackends` (lines 526-529): resets
`liveBackends` to an empty map. -/
def DeleteBackends (c : PassthroughClient) :
    PassthroughClient × Option StoreError :=
  ({ c with liveBackends := [] }, none)

/-- One of the four mutating backend operations of the passthrough client
named by claim C9. -/
inductive BackendMutation where
  | add (b : Backend)
  | update (b : Backend)
  | deleteOne (b : Backend)
  | deleteAll
deriving DecidableEq, Repr

/-- Apply a backend mutation to the client state (the returned error is
dropped; the state component is kept). -/
def applyMutation (c : PassthroughClient) (m : BackendMutation) :
    PassthroughClient :=
  match m with
  | .add b => (AddBackend c b).1
  | .update b => (UpdateBackend c b).1
  | .deleteOne b => (DeleteBackend c b).1
  | .deleteAll => (DeleteBackends c).1

/-- `PassthroughClient.getVolumesFromBackend` (lines 592-608): relays the
driver's wrapper stream, setting the `Backend` field of each non-nil volume
to the backend's name.  The goroutine-per-backend fan-out is modelled by its
sequential linearization. -/
def getVolumesFromBackend (b : Backend) : List VolumeExternalWrapper :=
  b.driver.wrappers.map fun w =>
    match w.volume with
    | some v => { w with volume := some { v with backend := b.name } }
    | none => w

/-- `PassthroughClient.GetVolumes` (lines 558-587): merge the per-backend
wrapper streams, keep the volume of every wrapper without an error (logging
and skipping wrappers that carry one), and return with no error.  The
aggregated item type is `Option VolumeExternal` because the Go code appends
`wrapper.Volume` (a possibly-nil pointer) verbatim. -/
def GetVolumes (c : PassthroughClient) :
    List (Option VolumeExternal) × Option StoreError :=
  let stream :=
    (c.liveBackends.map fun p => getVolumesFromBackend p.2).flatten
  (stream.foldl
      (fun acc w => if w.wrapError.isSome then acc else acc ++ [w.volume]) [],
    none)

/-- The volumes a single backend successfully reports, as described by claim
C7: the wrappers without a per-item error, their volumes tagged with the
backend's name. -/
def successfulVolumes (b : Backend) : List (Option VolumeExternal) :=
  (b.driver.wrappers.filter fun w => w.wrapError = none).map fun w =>
    w.volume.map fun v => { v with backend := b.name }

end Passthrough

namespace CSI

/-- A concrete pre-existing volume of size 100 on backend `fast-a`, used to
exercise `CreateVolume`. -/
def vEx : VolumeExternal :=
  ⟨⟨"v", "trident_v", 100, .file, .readWriteOnce, "", "fast", ""⟩, "fast-a"⟩

/-- A concrete orchestrator surface: `GetVolume` knows only `vEx`;
one File backend exists; the storage-class lookup succeeds with class
`fast`; `AddVolume` answers with a driver error, so any response it
contributes is visibly different from the pre-existing volume's. -/
def apiEx : OrchestratorAPI where
  getVolume := fun n => if n = "v" then .ok vEx else .error (.notFound n)
  listBackends := .ok [⟨"fast-a", .file⟩]
  getStorageClassName := fun _ => .ok "fast"
  mkVolumeConfig := fun n sc sz pr am => .ok ⟨n, "", sz, pr, am, "", sc, ""⟩
  addVolume := fun _ => .error (.otherErr "driver invoked")

/-- A request for the pre-existing volume `v` with a compatible (smaller)
required capacity. -/
def reqIdem : CreateVolumeRequest :=
  ⟨"v", some [⟨.mountAccess "", .singleNodeWriter⟩], some ⟨50⟩, []⟩

/-- The same request but with a required capacity exceeding the existing
volume's size. -/
def reqConflict : CreateVolumeRequest :=
  ⟨"v", some [⟨.mountAccess "", .singleNodeWriter⟩], some ⟨200⟩, []⟩

/-- A request for the pre-existing volume `v` whose only capability carries
the block access type. -/
def reqBlockExisting : CreateVolumeRequest :=
  ⟨"v", some [⟨.blockAccess, .singleNodeWriter⟩], some ⟨50⟩, []⟩

/-- A request for a fresh volume `w` whose capabilities include a block
access type behind a mount capability. -/
def reqBlockFresh : CreateVolumeRequest :=
  ⟨"w", some [⟨.mountAccess "ext4", .singleNodeWriter⟩,
              ⟨.blockAccess, .singleNodeWriter⟩], some ⟨50⟩, []⟩

end CSI

namespace Core

/-- Modelled from the spec: a typed attribute offer advertised by a pool
(§3 Storage Pool) — `StringOffer{values}`, `BoolOffer{value}`,
`IntOffer{min,max}`.  The `storage_attribute` package is absent from the
source tree. -/
inductive Offer where
  | strOffer (values : List String)
  | boolOffer (value : Bool)
  | intOffer (lo hi : Int)
deriving DecidableEq, Repr

/-- Modelled from the spec: a typed attribute request made by a storage
class (§3 Storage Class). -/
inductive Request where
  | strRequest (value : String)
  | boolRequest (value : Bool)
  | intRequest (value : Int)
deriving DecidableEq, Repr

/-- Modelled from the spec (§4.2): strictly typed attribute matching — a
string request matches a string offer iff the value is one of the offered
values; a bool request iff the values are equal; an int request iff the
value lies in the offered range; any cross-typed pair mismatches. -/
def requestMatches : Request → Offer → Bool
  | .strRequest v, .strOffer vs => vs.contains v
  | .boolRequest b, .boolOffer w => b == w
  | .intRequest n, .intOffer lo hi => decide (lo ≤ n) && decide (n ≤ hi)
  | _, _ => false

/-- Modelled from the spec (§3): a storage pool — a name, typed attribute
offers, and the reverse index of storage-class names that currently match
it. -/
structure Pool where
  name : String
  attributes : List (String × Offer)
  storageClasses : List String
deriving DecidableEq, Repr

/-- Modelled from the spec (§3): a storage-class configuration
(`storageclass.Config`): attribute requests, a required-match inclusion map
`Pools: backend → [pool-name]`, and a permissive inclusion map
`AdditionalPools`. -/
structure SCConfig where
  name : String
  attributes : List (String × Request)
  pools : List (String × List String)
  additionalPools : List (String × List String)
deriving DecidableEq, Repr

/-- The pool-name list a backend-keyed inclusion map assigns to a backend
(empty when the backend has no entry). -/
def poolListFor (m : List (String × List String)) (backendName : String) :
    List String :=
  match m.find? (fun p => p.1 == backendName) with
  | some p => p.2
  | none => []

/-- Whether `(backendName, poolName)` is listed in a backend-keyed
inclusion map. -/
def inPoolMap (m : List (String × List String)) (backendName poolName : String) :
    Bool :=
  (poolListFor m backendName).contains poolName

/-- The offer a pool holds for a named attribute, if any. -/
def offerFor (attrs : List (String × Offer)) (attrName : String) :
    Option Offer :=
  (attrs.find? (fun a => a.1 == attrName)).map (fun a => a.2)

/-- Modelled from the spec (§4.2): every attribute request of the class is
satisfied by an offer of the pool; a missing attribute on the pool is an
automatic mismatch. -/
def attributesSatisfied (c : SCConfig) (pool : Pool) : Bool :=
  c.attributes.all fun ar =>
    match offerFor pool.attributes ar.1 with
    | none => false
    | some off => requestMatches ar.2 off

/-- Modelled from the spec: the class→pool match predicate of §3 (the
`storage_class` package implementation is absent from the source tree).
The four clauses of §3 compose as follows, the composition being fixed by
the expected match sets of `TestAddStorageClassVolumes`
(`src/unnamed/part_001` lines 474-652): a pool listed in
`AdditionalPools[backend]` is accepted outright ("p is also accepted if
p ∈ AdditionalPools[b]", which the `additionalPoolsWithAttributesAndPools`
test case shows to override the two filters); otherwise, when
`AdditionalPools` is the only non-empty field nothing else matches (the
`additionalPoolsNoMatch` test case, and the reason §3 lists
"no AdditionalPools" in its empty-class clause); otherwise the two filters
apply: if `Pools` is non-empty the pool must be listed there, and every
attribute request must be satisfied; an entirely empty class matches every
pool. -/
def scMatches (c : SCConfig) (backendName : String) (pool : Pool) : Bool :=
  if inPoolMap c.additionalPools backendName pool.name then true
  else if !c.additionalPools.isEmpty && c.pools.isEmpty && c.attributes.isEmpty
    then false
  else
    (c.pools.isEmpty || inPoolMap c.pools backendName pool.name) &&
      attributesSatisfied c pool

/-- Backend lifecycle state (§3 Backend): Online, Offline or Deleting. -/
inductive BackendState where
  | online
  | offline
  | deleting
deriving DecidableEq, Repr

/-- The driver surface the core claims observe: the multiset of internal
names `Destroy` has been called with (the fake driver's `DestroyedVolumes`
map keeps the same record), and the initialized flag. -/
structure DriverRec where
  destroyedVolumes : List String
  initialized : Bool
deriving DecidableEq, Repr

/-- `Driver.Destroy(internalName)`: records the call. -/
def driverDestroy (d : DriverRec) (internalName : String) : DriverRec :=
  { d with destroyedVolumes := d.destroyedVolumes ++ [internalName] }

/-- Modelled from the spec (§3): a backend — name, lifecycle state, pools,
the names of the volumes placed on it (the keys of `Backend.Volumes`), and
its driver. -/
structure OrchBackend where
  name : String
  state : BackendState
  pools : List Pool
  volumeNames : List String
  driver : DriverRec
deriving DecidableEq, Repr

/-- Modelled from the spec (§3): a volume — config, owning backend name,
pool name, orphaned flag. -/
structure Volume where
  config : VolumeConfig
  backendName : String
  poolName : String
  orphaned : Bool
deriving DecidableEq, Repr

/-- Journal operation kinds (§3 VolumeTransaction), reduced to the two the
claims exercise. -/
inductive TxOp where
  | addVolumeTx
  | deleteVolumeTx
deriving DecidableEq, Repr

/-- A crash-recovery journal entry (§3 VolumeTransaction). -/
structure VolumeTransaction where
  op : TxOp
  config : VolumeConfig
deriving DecidableEq, Repr

/-- Modelled from the spec (§4.6): the persistent store contents the claims
observe — backend records (name and persisted state), volume records,
storage-class records, and the transaction journal. -/
structure StoreState where
  backends : List (String × BackendState)
  volumes : List Volume
  classes : List SCConfig
  txns : List VolumeTransaction
deriving DecidableEq, Repr

/-- Store lookup of a volume record by name (`storeClient.GetVolume`);
missing keys give KeyNotFound. -/
def StoreState.getVolume (s : StoreState) (name : String) :
    Except OrchError Volume :=
  match s.volumes.find? (fun v => v.config.name == name) with
  | some v => .ok v
  | none => .error (.keyNotFound name)

/-- Store lookup of a backend record's persisted state
(`storeClient.GetBackend`, reduced to the state field). -/
def StoreState.getBackendState (s : StoreState) (name : String) :
    Option BackendState :=
  (s.backends.find? (fun p => p.1 == name)).map (fun p => p.2)

/-- Write a backend's state to the store (insert-or-update). -/
def storePutBackendState (s : StoreState) (name : String)
    (st : BackendState) : StoreState :=
  if s.backends.any (fun p => p.1 == name) then
    { s with backends := s.backends.map fun p =>
        if p.1 == name then (name, st) else p }
  else
    { s with backends := s.backends ++ [(name, st)] }

/-- Modelled from the spec (§2, §4.1): the orchestrator's in-memory graph —
the `bootstrapped` flag, backends, the top-level volume map, storage
classes together with their recorded matched `(backend, pool)` pairs, and
the persistent store. -/
structure Orchestrator where
  bootstrapped : Bool
  backends : List OrchBackend
  volumes : List Volume
  storageClasses : List (SCConfig × List (String × String))
  store : StoreState
deriving DecidableEq, Repr

/-- Whether a backend of the given name exists and is Online. -/
def isOnlineBackend (o : Orchestrator) (name : String) : Bool :=
  o.backends.any fun b => b.name == name && b.state == BackendState.online

/-- Install a volume in `backend.Volumes`, `orch.volumes` and the
persistent store (the commit step of §4.3). -/
def placeVolume (o : Orchestrator) (vol : Volume) : Orchestrator :=
  { o with
    volumes := o.volumes ++ [vol]
    backends := o.backends.map fun b =>
      if b.name == vol.backendName then
        { b with volumeNames := b.volumeNames ++ [vol.config.name] }
      else b
    store := { o.store with volumes := o.store.volumes ++ [vol] } }

/-- Modelled from the spec (§4.1, §3 Storage Class lifecycle):
`AddStorageClass` scans all current pools and records matches
bidirectionally — the matched `(backend, pool)` pairs on the class and the
class name on each matching pool — and persists the class.  Backends that
are not Online are skipped, as `TestBackendUpdateAndDelete`
(`src/unnamed/part_001` lines 1398-1414) requires: a new storage class must
not have an offline backend assigned to it. -/
def matchedPairs (o : Orchestrator) (c : SCConfig) :
    List (String × String) :=
  (o.backends.map fun b =>
    if b.state == BackendState.online then
      (b.pools.filter fun p => scMatches c b.name p).map fun p =>
        (b.name, p.name)
    else []).flatten

/-- The new state and recorded matches produced by `addStorageClassCore`
(continuation of the doc comment above `matchedPairs`). -/
def addStorageClassCore (o : Orchestrator) (c : SCConfig) :
    Orchestrator × List (String × String) :=
  let matched := matchedPairs o c
  let backends := o.backends.map fun b =>
    if b.state == BackendState.online then
      { b with pools := b.pools.map fun p =>
          if scMatches c b.name p then
            { p with storageClasses := p.storageClasses ++ [c.name] }
          else p }
    else b
  ({ o with
      backends := backends
      storageClasses := o.storageClasses ++ [(c, matched)]
      store := { o.store with classes := o.store.classes ++ [c] } },
    matched)

/-- Modelled from the spec (§4.3 AddVolume): validate that the class exists
and the name is unused, then iterate the class's recorded matched pools in
deterministic order and place the volume on the first pool whose backend is
Online (offline backends admit no new volumes, §3).  The journal write and
per-pool driver failures are elided: the claims settled against this model
do not observe them, and the model driver accepts every create. -/
def addVolumeCore (o : Orchestrator) (cfg : VolumeConfig) :
    Orchestrator × Except OrchError Volume :=
  match o.storageClasses.find? (fun scp => scp.1.name == cfg.storageClass) with
  | none => (o, .error (.invalidInput "unknown storage class"))
  | some scp =>
    if o.volumes.any (fun v => v.config.name == cfg.name) then
      (o, .error (.invalidInput "volume name already in use"))
    else
      match scp.2.find? (fun bp => isOnlineBackend o bp.1) with
      | none => (o, .error (.otherErr "no suitable pool for volume"))
      | some bp =>
        let vol : Volume := ⟨cfg, bp.1, bp.2, false⟩
        (placeVolume o vol, .ok vol)

/-- Modelled from the spec (§4.1 CloneVolume): look up the clone source
volume and delegate to its backend's driver, so the clone is created on the
source volume's backend and pool. -/
def cloneVolumeCore (o : Orchestrator) (cfg : VolumeConfig) :
    Orchestrator × Except OrchError Volume :=
  match o.volumes.find? (fun v => v.config.name == cfg.cloneSourceVolume) with
  | none => (o, .error (.notFound cfg.cloneSourceVolume))
  | some src =>
    if o.volumes.any (fun v => v.config.name == cfg.name) then
      (o, .error (.invalidInput "volume name already in use"))
    else
      let vol : Volume := ⟨cfg, src.backendName, src.poolName, false⟩
      (placeVolume o vol, .ok vol)

/-- Modelled from the spec (§4.3 DeleteVolume): look up the volume
(NotFound if missing); call `Driver.Destroy(InternalName)` on the owning
backend; remove the volume from the in-memory maps and the store; and if
the owning backend is Offline and now holds zero volumes, remove the
backend in-memory and from the store.  The journal write is elided as in
`addVolumeCore`. -/
def deleteVolumeCore (o : Orchestrator) (name : String) :
    Orchestrator × Except OrchError Unit :=
  match o.volumes.find? (fun v => v.config.name == name) with
  | none => (o, .error (.notFound name))
  | some vol =>
    let o1 : Orchestrator :=
      { o with
        volumes := o.volumes.filter fun v => v.config.name != name
        backends := o.backends.map fun b =>
          if b.name == vol.backendName then
            { b with
              volumeNames := b.volumeNames.filter fun n => n != name
              driver := driverDestroy b.driver vol.config.internalName }
          else b
        store := { o.store with
          volumes := o.store.volumes.filter fun v => v.config.name != name } }
    match o1.backends.find? (fun b => b.name == vol.backendName) with
    | none => (o1, .ok ())
    | some b =>
      if b.state == BackendState.offline && b.volumeNames.isEmpty then
        ({ o1 with
            backends := o1.backends.filter fun b2 => b2.name != vol.backendName
            store := { o1.store with
              backends := o1.store.backends.filter fun p =>
                p.1 != vol.backendName } },
          .ok ())
      else (o1, .ok ())

/-- Modelled from the spec (§4.1 DeleteBackend): an in-use backend (one
still holding volumes) transitions to Offline — it stays in memory with its
volumes, and the state change is persisted; a backend with no volumes is
removed from memory and from the store. -/
def deleteBackendCore (o : Orchestrator) (name : String) :
    Orchestrator × Except OrchError Unit :=
  match o.backends.find? (fun b => b.name == name) with
  | none => (o, .error (.notFound name))
  | some b =>
    if b.volumeNames.isEmpty then
      ({ o with
          backends := o.backends.filter fun b2 => b2.name != name
          store := { o.store with
            backends := o.store.backends.filter fun p => p.1 != name } },
        .ok ())
    else
      ({ o with
          backends := o.backends.map fun b2 =>
            if b2.name == name then { b2 with state := .offline } else b2
          store := storePutBackendState o.store name .offline },
        .ok ())

/-- Modelled from the spec (§4.1): public `AddBackend`.  Until Bootstrap
completes it fails with NotReady; only that gate is observed by the claims
settled here, so a bootstrapped orchestrator accepts the config JSON
unchanged (driver initialization and the atomic swap of §4.4 are outside
the claims). -/
def AddBackendOp (o : Orchestrator) (configJSON : String) :
    Orchestrator × Except OrchError String :=
  if o.bootstrapped then (o, .ok configJSON) else (o, .error .notReady)

/-- Modelled from the spec (§4.1): public `GetBackend` — NotReady before
Bootstrap, then a lookup by name. -/
def GetBackendOp (o : Orchestrator) (name : String) :
    Except OrchError OrchBackend :=
  if o.bootstrapped then
    match o.backends.find? (fun b => b.name == name) with
    | some b => .ok b
    | none => .error (.notFound name)
  else .error .notReady

/-- Modelled from the spec (§4.1): public `ListBackends`. -/
def ListBackendsOp (o : Orchestrator) : Except OrchError (List OrchBackend) :=
  if o.bootstrapped then .ok o.backends else .error .notReady

/-- Modelled from the spec (§4.1): public `DeleteBackend`. -/
def DeleteBackendOp (o : Orchestrator) (name : String) :
    Orchestrator × Except OrchError Unit :=
  if o.bootstrapped then deleteBackendCore o name else (o, .error .notReady)

/-- Modelled from the spec (§4.1, §4.3): public `AddVolume`. -/
def AddVolumeOp (o : Orchestrator) (cfg : VolumeConfig) :
    Orchestrator × Except OrchError Volume :=
  if o.bootstrapped then addVolumeCore o cfg else (o, .error .notReady)

/-- Modelled from the spec (§4.1): public `CloneVolume`. -/
def CloneVolumeOp (o : Orchestrator) (cfg : VolumeConfig) :
    Orchestrator × Except OrchError Volume :=
  if o.bootstrapped then cloneVolumeCore o cfg else (o, .error .notReady)

/-- Modelled from the spec (§4.1): public `GetVolume`. -/
def GetVolumeOp (o : Orchestrator) (name : String) : Except OrchError Volume :=
  if o.bootstrapped then
    match o.volumes.find? (fun v => v.config.name == name) with
    | some v => .ok v
    | none => .error (.notFound name)
  else .error .notReady

/-- Modelled from the spec (§4.1): public `ListVolumes`. -/
def ListVolumesOp (o : Orchestrator) : Except OrchError (List Volume) :=
  if o.bootstrapped then .ok o.volumes else .error .notReady

/-- Modelled from the spec (§4.1, §4.3): public `DeleteVolume`. -/
def DeleteVolumeOp (o : Orchestrator) (name : String) :
    Orchestrator × Except OrchError Unit :=
  if o.bootstrapped then deleteVolumeCore o name else (o, .error .notReady)

/-- Modelled from the spec (§4.1): public `AddStorageClass`; returns the
recorded matched `(backend, pool)` pairs, as the external representation
carries the list of matched pairs. -/
def AddStorageClassOp (o : Orchestrator) (c : SCConfig) :
    Orchestrator × Except OrchError (List (String × String)) :=
  if o.bootstrapped then
    let r := addStorageClassCore o c
    (r.1, .ok r.2)
  else (o, .error .notReady)

/-- Modelled from the spec (§4.1): public `GetStorageClass`. -/
def GetStorageClassOp (o : Orchestrator) (name : String) :
    Except OrchError SCConfig :=
  if o.bootstrapped then
    match o.storageClasses.find? (fun scp => scp.1.name == name) with
    | some scp => .ok scp.1
    | none => .error (.notFound name)
  else .error .notReady

/-- Modelled from the spec (§4.1): public `ListStorageClasses`. -/
def ListStorageClassesOp (o : Orchestrator) :
    Except OrchError (List SCConfig) :=
  if o.bootstrapped then .ok (o.storageClasses.map (fun scp => scp.1))
  else .error .notReady

/-- Modelled from the spec (§4.1): public `DeleteStorageClass` — removes
the class from every pool's reverse index, from the class map and from the
store. -/
def DeleteStorageClassOp (o : Orchestrator) (name : String) :
    Orchestrator × Except OrchError Unit :=
  if o.bootstrapped then
    ({ o with
        storageClasses := o.storageClasses.filter fun scp =>
          scp.1.name != name
        backends := o.backends.map fun b =>
          { b with pools := b.pools.map fun p =>
              { p with storageClasses := p.storageClasses.filter fun n =>
                  n != name } }
        store := { o.store with
          classes := o.store.classes.filter fun c => c.name != name } },
      .ok ())
  else (o, .error .notReady)

/-- Modelled from the spec (§4.1): public `ReloadVolumes` — rebuilds only
the volume portion of the in-memory graph from the persistent store. -/
def ReloadVolumesOp (o : Orchestrator) : Orchestrator × Except OrchError Unit :=
  if o.bootstrapped then
    ({ o with volumes := o.store.volumes }, .ok ())
  else (o, .error .notReady)

/-- Remove a journal entry from the store (`DeleteVolumeTransaction`). -/
def clearTxn (o : Orchestrator) (txn : VolumeTransaction) : Orchestrator :=
  { o with store := { o.store with
      txns := o.store.txns.filter fun t => t != txn } }

/-- `Driver.Destroy` of one internal name on every backend (the cleanup of a
partial creation does not know which backend holds the remnant, so the
journalled internal name is destroyed wherever it may live; `Destroy` is
idempotent). -/
def destroyEverywhere (o : Orchestrator) (internalName : String) :
    Orchestrator :=
  { o with backends := o.backends.map fun b =>
      { b with driver := driverDestroy b.driver internalName } }

/-- Modelled from the spec (§4.5): reconciliation of one residual journal
entry.  `AddVolume` rows: whether or not the volume record survived, ask
the driver to `Destroy` the journalled `InternalName` and clear the
journal, keeping any stored volume.  `DeleteVolume` rows: with the volume
present, complete the delete (driver plus store) and clear; with it absent,
best-effort `Destroy` and clear. -/
def handleFailedTransaction (o : Orchestrator) (txn : VolumeTransaction) :
    Orchestrator :=
  match txn.op with
  | .addVolumeTx =>
    clearTxn (destroyEverywhere o txn.config.internalName) txn
  | .deleteVolumeTx =>
    if o.volumes.any (fun v => v.config.name == txn.config.name) then
      let o1 := destroyEverywhere o txn.config.internalName
      clearTxn
        { o1 with
          volumes := o1.volumes.filter fun v =>
            v.config.name != txn.config.name
          store := { o1.store with
            volumes := o1.store.volumes.filter fun v =>
              v.config.name != txn.config.name } }
        txn
    else
      clearTxn (destroyEverywhere o txn.config.internalName) txn

/-- Modelled from the spec (§4.5 Bootstrap): read backends, volumes and
transactions from the persistent store; rebuild the in-memory graph
(`mkDriver` supplies the freshly initialized driver of each backend; pools
and storage classes are rebuilt too but the claims settled against this
model do not observe them, so they are left empty); then reconcile every
residual transaction; finally mark the orchestrator bootstrapped. -/
def bootstrap (store : StoreState) (mkDriver : String → DriverRec) :
    Orchestrator :=
  let backends := store.backends.map fun p =>
    OrchBackend.mk p.1 p.2 []
      ((store.volumes.filter fun v => v.backendName == p.1).map fun v =>
        v.config.name)
      (mkDriver p.1)
  let o0 : Orchestrator := ⟨true, backends, store.volumes, [], store⟩
  store.txns.foldl handleFailedTransaction o0

/-- Total number of `Destroy` calls recorded for one internal name across
all backends. -/
def destroyCount (o : Orchestrator) (internalName : String) : Nat :=
  (o.backends.map fun b => b.driver.destroyedVolumes.count internalName).sum

/-- An empty persistent store. -/
def emptyStore : StoreState := ⟨[], [], [], []⟩

/-- A not-yet-bootstrapped orchestrator. -/
def oNotReady : Orchestrator := ⟨false, [], [], [], emptyStore⟩

/-- Config of a concrete source volume `src`. -/
def vSrcCfg : VolumeConfig :=
  ⟨"src", "trident_src", 1, .file, .readWriteOnce, "", "only-b1", ""⟩

/-- The source volume `src`, placed on backend `b1`, pool `p1`. -/
def vSrc : Volume := ⟨vSrcCfg, "b1", "p1", false⟩

/-- Config of a clone of `src`. -/
def cloneCfg : VolumeConfig :=
  ⟨"src_clone", "trident_src_clone", 1, .file, .readWriteOnce, "", "only-b1",
    "src"⟩

/-- The clone the model produces for `cloneCfg`. -/
def cloneVol : Volume := ⟨cloneCfg, "b1", "p1", false⟩

/-- A concrete pool offering IOPS in the range 1000-3000. -/
def pool1 : Pool := ⟨"p1", [("IOPS", .intOffer 1000 3000)], []⟩

/-- A concrete Online backend `b1` with pool `p1`, holding volume `src`. -/
def backend1 : OrchBackend := ⟨"b1", .online, [pool1], ["src"], ⟨[], true⟩⟩

/-- A storage class whose `Pools` map lists exactly `b1/p1`. -/
def scOnlyB1 : SCConfig := ⟨"only-b1", [], [("b1", ["p1"])], []⟩

/-- A bootstrapped orchestrator with backend `b1` holding volume `src` and
the class `only-b1` matched to `b1/p1` alone. -/
def oLive : Orchestrator :=
  ⟨true, [backend1], [vSrc], [(scOnlyB1, [("b1", "p1")])],
    ⟨[("b1", .online)], [vSrc], [scOnlyB1], []⟩⟩

/-- A config requesting a fresh volume through class `only-b1`. -/
def freshCfg : VolumeConfig :=
  ⟨"fresh", "trident_fresh", 1, .file, .readWriteOnce, "", "only-b1", ""⟩

/-- A pool with no attribute offers, on the offline backend below. -/
def poolOff : Pool := ⟨"p1", [], []⟩

/-- A concrete Offline backend with one pool. -/
def backendOff : OrchBackend := ⟨"b1", .offline, [poolOff], [], ⟨[], true⟩⟩

/-- A bootstrapped orchestrator whose only backend is Offline. -/
def oOffline : Orchestrator := ⟨true, [backendOff], [], [], emptyStore⟩

/-- A storage class with no Pools, no AdditionalPools and no Attributes
(the empty class, which the match predicate accepts on every pool). -/
def cEmptyClass : SCConfig := ⟨"empty", [], [], []⟩

/-- A storage class requesting IOPS 2000 with no inclusion maps. -/
def cAttr : SCConfig := ⟨"fast", [("IOPS", .intRequest 2000)], [], []⟩

/-- A bootstrapped orchestrator with the Online backend `b1` and no
classes, for exercising `AddStorageClass`. -/
def oOnline : Orchestrator := ⟨true, [backend1], [], [], emptyStore⟩

/-- The journalled config of the never-completed volume `vX`. -/
def cfgVX : VolumeConfig :=
  ⟨"vX", "vX-internal", 50, .file, .readWriteOnce, "", "sc", ""⟩

/-- A persistent store holding one backend record, no volume record for
`vX`, and a residual AddVolume transaction for `vX`. -/
def storeC2 : StoreState :=
  ⟨[("b1", .online)], [], [], [⟨.addVolumeTx, cfgVX⟩]⟩

/-- Freshly initialized drivers for the restarted orchestrator. -/
def freshDriver : String → DriverRec := fun _ => ⟨[], true⟩

end Core

end Trident

/-- Claim C8: the CSI access-mode mapping sends SINGLE_NODE_WRITER and
SINGLE_NODE_READER_ONLY to ReadWriteOnce, MULTI_NODE_READER_ONLY to
ReadOnlyMany, MULTI_NODE_SINGLE_WRITER and MULTI_NODE_MULTI_WRITER to
ReadWriteMany, and MULTI_NODE_MULTI_WRITER is the only mode mapped to
protocol File — every other mode (the named ones and the default arm) yields
protocol Any. -/
theorem Trident.CSI.accessModeMapping :
    getAccessForCSIAccessMode .singleNodeWriter = .readWriteOnce ∧
    getAccessForCSIAccessMode .singleNodeReaderOnly = .readWriteOnce ∧
    getAccessForCSIAccessMode .multiNodeReaderOnly = .readOnlyMany ∧
    getAccessForCSIAccessMode .multiNodeSingleWriter = .readWriteMany ∧
    getAccessForCSIAccessMode .multiNodeMultiWriter = .readWriteMany ∧
    (∀ m : CSIAccessMode,
      getProtocolForCSIAccessMode m = .file ↔ m = .multiNodeMultiWriter) ∧
    (∀ m : CSIAccessMode, m ≠ .multiNodeMultiWriter →
      getProtocolForCSIAccessMode m = .protocolAny) := by
  refine ⟨rfl, rfl, rfl, rfl, rfl, ?_, ?_⟩
  · intro m
    cases m <;> simp [getProtocolForCSIAccessMode]
  · intro m hm
    cases m <;> first | rfl | exact absurd rfl hm

/-- Witness for C8 at a concrete mode: MULTI_NODE_READER_ONLY is not
MULTI_NODE_MULTI_WRITER, maps to ReadOnlyMany, and yields protocol Any. -/
theorem Trident.CSI.accessModeMapping_witness :
    getAccessForCSIAccessMode .multiNodeReaderOnly = .readOnlyMany ∧
    getProtocolForCSIAccessMode .multiNodeReaderOnly = .protocolAny := by
  obtain ⟨-, -, h3, -, -, -, h7⟩ := accessModeMapping
  exact ⟨h3, h7 .multiNodeReaderOnly (by decide)⟩

namespace Trident.Passthrough

/-- Each backend mutation of the passthrough client rewrites `liveBackends`
only; `bootBackends` is untouched. -/
theorem applyMutation_bootBackends (c : PassthroughClient) (m : BackendMutation) :
    (applyMutation c m).bootBackends = c.bootBackends := by
  cases m <;>
    simp only [applyMutation, AddBackend, UpdateBackend, DeleteBackend,
      DeleteBackends] <;>
    split <;> rfl

/-- `GetBackends` reads only `bootBackends`. -/
theorem getBackends_congr (c c' : PassthroughClient)
    (h : c.bootBackends = c'.bootBackends) : GetBackends c = GetBackends c' := by
  simp only [GetBackends, h]

end Trident.Passthrough

/-- Claim C9: for the passthrough persistence client, `GetBackends` always
returns exactly the backends parsed from the config files at initialization:
no sequence of `AddBackend`, `UpdateBackend`, `DeleteBackend` or
`DeleteBackends` calls changes the list it returns, because those operations
touch only the separate `liveBackends` map. -/
theorem Trident.Passthrough.getBackends_unaffected_by_backend_mutations
    (c : PassthroughClient) (ops : List BackendMutation) :
    GetBackends (ops.foldl applyMutation c) = GetBackends c ∧
    (ops.foldl applyMutation c).bootBackends = c.bootBackends := by
  induction ops generalizing c with
  | nil => exact ⟨rfl, rfl⟩
  | cons m rest ih =>
    have hboot := applyMutation_bootBackends c m
    rcases ih (applyMutation c m) with ⟨h1, h2⟩
    refine ⟨?_, h2.trans hboot⟩
    rw [List.foldl_cons, h1]
    exact getBackends_congr _ _ hboot

namespace Trident.Passthrough

/-- The aggregation loop of `GetVolumes`: folding the wrapper stream keeps
exactly the volumes of the wrappers that carry no error, in order. -/
theorem foldl_collect (l : List VolumeExternalWrapper)
    (acc : List (Option VolumeExternal)) :
    l.foldl
        (fun acc w => if w.wrapError.isSome then acc else acc ++ [w.volume])
        acc =
      acc ++ (l.filter fun w => w.wrapError = none).map (fun w => w.volume) := by
  induction l generalizing acc with
  | nil => simp
  | cons w l ih =>
    cases hw : w.wrapError <;>
      simp [List.foldl_cons, List.filter_cons, hw, ih]

/-- Filtering the relayed stream of one backend for error-free wrappers and
projecting the volumes yields exactly that backend's successfully reported
volumes, tagged with its name. -/
theorem filter_map_getVolumesFromBackend (b : Backend) :
    ((getVolumesFromBackend b).filter fun w => w.wrapError = none).map
        (fun w => w.volume) =
      successfulVolumes b := by
  simp only [getVolumesFromBackend, successfulVolumes]
  induction b.driver.wrappers with
  | nil => rfl
  | cons w l ih =>
    cases hv : w.volume <;>
      cases hw : w.wrapError <;>
        simp_all [List.filter_cons, hv, hw]

end Trident.Passthrough

/-- Claim C7: the passthrough store's `GetVolumes` returns the concatenation
over the live backends of the volumes each backend's
`GetVolumeExternalWrappers` successfully reports, each volume's `Backend`
field set to its backend's name; a wrapper carrying a per-item error is
skipped, and `GetVolumes` itself never returns an error. -/
theorem Trident.Passthrough.getVolumes_is_concat_of_successful
    (c : PassthroughClient) :
    GetVolumes c =
      ((c.liveBackends.map fun p => successfulVolumes p.2).flatten, none) := by
  simp only [GetVolumes, foldl_collect, List.nil_append]
  refine Prod.ext ?_ rfl
  induction c.liveBackends with
  | nil => rfl
  | cons p bs ih =>
    simp only [List.map_cons, List.flatten_cons, List.filter_append,
      List.map_append, filter_map_getVolumesFromBackend]
    exact congrArg (successfulVolumes p.2 ++ ·) ih

/-- Claim C4: CSI `CreateVolume` is idempotent on exact match and rejects
size conflicts.  When a volume with the requested name already exists
(`GetVolume` succeeds): if its size is at least the required capacity the
call returns that volume, reaching neither the storage-class lookup nor
`AddVolume` (hence the driver is not called again); if its size is smaller
the call fails with AlreadyExists, likewise without invoking `AddVolume`. -/
theorem Trident.CSI.createVolume_idempotent_or_alreadyExists
    (o : OrchestratorAPI) (req : CreateVolumeRequest)
    (caps : List VolumeCapability) (v : VolumeExternal)
    (hname : req.name.length ≠ 0)
    (hcaps : req.capabilities = some caps)
    (hget : o.getVolume req.name = .ok v) :
    CreateVolume o req =
      if v.config.size < requiredBytes req then
        ⟨.error ⟨.alreadyExists,
          "volume " ++ req.name ++ " but with different size already exists"⟩,
          false, false⟩
      else
        ⟨.ok (getCSIVolumeFromTridentVolume v), false, false⟩ := by
  simp only [CreateVolume, hcaps, hget, if_neg hname]

/-- Witness for C4 at concrete inputs: requesting 50 against the existing
size-100 volume returns that volume with no `AddVolume` call; requesting 200
returns AlreadyExists. -/
theorem Trident.CSI.createVolume_idempotent_or_alreadyExists_witness :
    CreateVolume apiEx reqIdem =
      ⟨.ok (getCSIVolumeFromTridentVolume vEx), false, false⟩ ∧
    CreateVolume apiEx reqConflict =
      ⟨.error ⟨.alreadyExists,
        "volume v but with different size already exists"⟩, false, false⟩ := by
  constructor
  · have h := createVolume_idempotent_or_alreadyExists apiEx reqIdem
      [⟨.mountAccess "", .singleNodeWriter⟩] vEx (by decide) rfl rfl
    rwa [if_neg (by decide : ¬(vEx.config.size < requiredBytes reqIdem))] at h
  · have h := createVolume_idempotent_or_alreadyExists apiEx reqConflict
      [⟨.mountAccess "", .singleNodeWriter⟩] vEx (by decide) rfl rfl
    rwa [if_pos (by decide : vEx.config.size < requiredBytes reqConflict)] at h

namespace Trident.CSI

/-- If any requested capability carries the block access type, the
capability loop ends in an InvalidArgument error — either at the block
capability itself ("block access type not supported") or at an earlier
capability for which no backend serves the protocol ("no available storage
for access mode"). -/
theorem capLoop_block_ends_invalidArgument (o : OrchestratorAPI)
    (caps : List VolumeCapability) (acc : Protocol × AccessMode × String)
    (hblock : ∃ cap ∈ caps, cap.accessType = .blockAccess) :
    ∃ m, capLoop o caps acc = .error ⟨.invalidArgument, m⟩ := by
  induction caps generalizing acc with
  | nil =>
    rcases hblock with ⟨c, hc, _⟩
    simp at hc
  | cons cap rest ih =>
    rcases hblock with ⟨c, hc, hblk⟩
    cases hcap : cap.accessType with
    | blockAccess => exact ⟨"block access type not supported", by simp [capLoop, hcap]⟩
    | mountAccess fsType =>
      rcases List.mem_cons.mp hc with h | h
      · rw [h, hcap] at hblk
        cases hblk
      · simp only [capLoop, hcap]
        by_cases hb :
            hasBackendForProtocol o (getProtocolForCSIAccessMode cap.accessMode)
        · simpa [hb] using ih _ ⟨c, h, hblk⟩
        · exact ⟨"no available storage for access mode", by simp [hb]⟩

end Trident.CSI

/-- Claim C10, counterexample: a request whose only capability has the block
access type is not rejected when a size-compatible volume with the requested
name already exists — `CreateVolume` returns that volume successfully, so
the block check is not reached. -/
theorem Trident.CSI.createVolume_block_not_always_rejected :
    reqBlockExisting.capabilities =
      some [⟨.blockAccess, .singleNodeWriter⟩] ∧
    (CreateVolume apiEx reqBlockExisting).outcome =
      .ok (getCSIVolumeFromTridentVolume vEx) := by
  constructor
  · rfl
  · rfl

/-- Claim C10 as amended: when no pre-existing volume with the requested
name is found (`GetVolume` fails with NotFound), CSI `CreateVolume` rejects
every request in which any requested volume capability has the block access
type, returning an InvalidArgument error before any storage class lookup or
volume creation occurs. -/
theorem Trident.CSI.createVolume_rejects_block_when_creating
    (o : OrchestratorAPI) (req : CreateVolumeRequest)
    (caps : List VolumeCapability) (e : OrchError)
    (hname : req.name.length ≠ 0)
    (hcaps : req.capabilities = some caps)
    (hget : o.getVolume req.name = .error e)
    (hnf : e.isNotFoundError = true)
    (hblock : ∃ cap ∈ caps, cap.accessType = .blockAccess) :
    ∃ m, CreateVolume o req =
      ⟨.error ⟨.invalidArgument, m⟩, false, false⟩ := by
  obtain ⟨m, hm⟩ :=
    capLoop_block_ends_invalidArgument o caps (.protocolAny, .modeAny, "") hblock
  exact ⟨m, by simp only [CreateVolume, hcaps, hget, hnf, if_neg hname, if_pos, hm]⟩

/-- Witness for the amended C10 at concrete inputs: creating a fresh volume
`w` with a mount capability followed by a block capability is rejected with
InvalidArgument, without reaching the storage-class lookup or `AddVolume`. -/
theorem Trident.CSI.createVolume_rejects_block_when_creating_witness :
    ∃ m, CreateVolume apiEx reqBlockFresh =
      ⟨.error ⟨.invalidArgument, m⟩, false, false⟩ :=
  createVolume_rejects_block_when_creating apiEx reqBlockFresh
    [⟨.mountAccess "ext4", .singleNodeWriter⟩,
     ⟨.blockAccess, .singleNodeWriter⟩]
    (.notFound "w") (by decide) rfl rfl rfl
    ⟨⟨.blockAccess, .singleNodeWriter⟩, by simp, rfl⟩

/-- Claim C5: before Bootstrap has completed (`bootstrapped = false`),
every public orchestrator operation fails with NotReady, returns no result,
and leaves the state unchanged: AddBackend, GetBackend, ListBackends,
DeleteBackend, AddVolume, CloneVolume, GetVolume, ListVolumes,
DeleteVolume, AddStorageClass, GetStorageClass, ListStorageClasses,
DeleteStorageClass and ReloadVolumes. -/
theorem Trident.Core.notReady_before_bootstrap
    (o : Orchestrator) (h : o.bootstrapped = false) :
    (∀ js, AddBackendOp o js = (o, .error .notReady)) ∧
    (∀ n, GetBackendOp o n = .error .notReady) ∧
    ListBackendsOp o = .error .notReady ∧
    (∀ n, DeleteBackendOp o n = (o, .error .notReady)) ∧
    (∀ cfg, AddVolumeOp o cfg = (o, .error .notReady)) ∧
    (∀ cfg, CloneVolumeOp o cfg = (o, .error .notReady)) ∧
    (∀ n, GetVolumeOp o n = .error .notReady) ∧
    ListVolumesOp o = .error .notReady ∧
    (∀ n, DeleteVolumeOp o n = (o, .error .notReady)) ∧
    (∀ c, AddStorageClassOp o c = (o, .error .notReady)) ∧
    (∀ n, GetStorageClassOp o n = .error .notReady) ∧
    ListStorageClassesOp o = .error .notReady ∧
    (∀ n, DeleteStorageClassOp o n = (o, .error .notReady)) ∧
    ReloadVolumesOp o = (o, .error .notReady) := by
  simp [AddBackendOp, GetBackendOp, ListBackendsOp, DeleteBackendOp,
    AddVolumeOp, CloneVolumeOp, GetVolumeOp, ListVolumesOp, DeleteVolumeOp,
    AddStorageClassOp, GetStorageClassOp, ListStorageClassesOp,
    DeleteStorageClassOp, ReloadVolumesOp, h]

/-- Witness for C5: on a concrete non-bootstrapped orchestrator, AddVolume
and GetVolume fail with NotReady. -/
theorem Trident.Core.notReady_before_bootstrap_witness :
    AddVolumeOp oNotReady cfgVX = (oNotReady, .error .notReady) ∧
    GetVolumeOp oNotReady "vX" = .error .notReady := by
  obtain ⟨-, -, -, -, h5, -, h7, -⟩ := notReady_before_bootstrap oNotReady rfl
  exact ⟨h5 cfgVX, h7 "vX"⟩

/-- Claim C6: every volume successfully created by CloneVolume is placed on
the same backend (and pool) as its CloneSourceVolume. -/
theorem Trident.Core.cloneVolume_placed_on_source_backend
    (o o2 : Orchestrator) (cfg : VolumeConfig) (clone : Volume)
    (h : CloneVolumeOp o cfg = (o2, .ok clone)) :
    ∃ src,
      o.volumes.find? (fun v => v.config.name == cfg.cloneSourceVolume) =
        some src ∧
      clone.backendName = src.backendName ∧ clone.poolName = src.poolName := by
  unfold CloneVolumeOp at h
  by_cases hb : o.bootstrapped
  · rw [if_pos hb] at h
    unfold cloneVolumeCore at h
    cases hfind : o.volumes.find?
        (fun v => v.config.name == cfg.cloneSourceVolume) with
    | none => rw [hfind] at h; simp at h
    | some src =>
      rw [hfind] at h
      by_cases hdup : o.volumes.any (fun v => v.config.name == cfg.name)
      · simp [hdup] at h
      · simp only [hdup, Bool.false_eq_true, if_neg, Prod.mk.injEq,
          Except.ok.injEq, reduceCtorEq, if_false] at h
        exact ⟨src, rfl, by rw [← h.2], by rw [← h.2]⟩
  · rw [if_neg hb] at h
    simp at h

/-- Witness for C6: cloning `src` on the concrete orchestrator places the
clone on `b1/p1`, the backend and pool of the source. -/
theorem Trident.Core.cloneVolume_placed_on_source_backend_witness :
    ∃ src,
      oLive.volumes.find?
          (fun v => v.config.name == cloneCfg.cloneSourceVolume) = some src ∧
      cloneVol.backendName = src.backendName ∧
      cloneVol.poolName = src.poolName :=
  cloneVolume_placed_on_source_backend oLive (placeVolume oLive cloneVol)
    cloneCfg cloneVol rfl

/-- Claim C2: if the persistent store contains a residual AddVolume
transaction for a volume that has no volume record, then after Bootstrap
the driver's Destroy has been called on the journalled internal name
exactly once, GetVolume for the name returns NotFound (both from the
orchestrator and as KeyNotFound from the store), and the store's
transaction list is empty. -/
theorem Trident.Core.bootstrap_addVolume_txn_only_recovery
    (store : StoreState) (mkDriver : String → DriverRec)
    (cfg : VolumeConfig) (bn : String) (bs : BackendState)
    (hb : store.backends = [(bn, bs)])
    (htxn : store.txns = [⟨.addVolumeTx, cfg⟩])
    (habsent : store.volumes.all (fun v => v.config.name != cfg.name) = true)
    (hfresh : (mkDriver bn).destroyedVolumes = []) :
    destroyCount (bootstrap store mkDriver) cfg.internalName = 1 ∧
    GetVolumeOp (bootstrap store mkDriver) cfg.name =
      .error (.notFound cfg.name) ∧
    (bootstrap store mkDriver).store.getVolume cfg.name =
      .error (.keyNotFound cfg.name) ∧
    (bootstrap store mkDriver).store.txns = [] := by
  have hnone :
      store.volumes.find? (fun v => v.config.name == cfg.name) = none := by
    refine List.find?_eq_none.mpr fun v hv => ?_
    have := (List.all_eq_true.mp habsent) v hv
    simpa using this
  refine ⟨?_, ?_, ?_, ?_⟩
  · simp [bootstrap, hb, htxn, handleFailedTransaction, clearTxn,
      destroyEverywhere, driverDestroy, destroyCount, hfresh]
  · simp [bootstrap, hb, htxn, handleFailedTransaction, clearTxn,
      destroyEverywhere, GetVolumeOp, hnone]
  · simp [bootstrap, hb, htxn, handleFailedTransaction, clearTxn,
      destroyEverywhere, StoreState.getVolume, hnone]
  · simp [bootstrap, hb, htxn, handleFailedTransaction, clearTxn,
      destroyEverywhere]

/-- Witness for C2 on the concrete seeded store: after Bootstrap,
`Destroy("vX-internal")` was recorded exactly once, `vX` is NotFound in
memory and KeyNotFound in the store, and the journal is empty. -/
theorem Trident.Core.bootstrap_addVolume_txn_only_recovery_witness :
    destroyCount (bootstrap storeC2 freshDriver) "vX-internal" = 1 ∧
    GetVolumeOp (bootstrap storeC2 freshDriver) "vX" =
      .error (.notFound "vX") ∧
    (bootstrap storeC2 freshDriver).store.getVolume "vX" =
      .error (.keyNotFound "vX") ∧
    (bootstrap storeC2 freshDriver).store.txns = [] :=
  bootstrap_addVolume_txn_only_recovery storeC2 freshDriver cfgVX "b1"
    .online rfl rfl rfl rfl

namespace Trident.Core

/-- `attributesSatisfied` in propositional form: every attribute request is
satisfied by an offer the pool holds for that attribute. -/
theorem attributesSatisfied_iff (c : SCConfig) (p : Pool) :
    attributesSatisfied c p = true ↔
      ∀ ar ∈ c.attributes, ∃ off,
        offerFor p.attributes ar.1 = some off ∧
        requestMatches ar.2 off = true := by
  unfold attributesSatisfied
  rw [List.all_eq_true]
  constructor
  · intro h ar har
    have hh := h ar har
    cases hoff : offerFor p.attributes ar.1 with
    | none => rw [hoff] at hh; exact absurd hh (by simp)
    | some off => rw [hoff] at hh; exact ⟨off, rfl, hh⟩
  · intro h ar har
    obtain ⟨off, hoff, hm⟩ := h ar har
    rw [hoff]
    exact hm

/-- The match predicate in propositional form — the composition of the §3
clauses: membership in `AdditionalPools[backend]` accepts outright;
otherwise the two filters (`Pools` membership when `Pools` is non-empty,
attribute satisfaction) must pass, and a class whose only non-empty field
is `AdditionalPools` accepts nothing further. -/
theorem scMatches_iff (c : SCConfig) (bName : String) (p : Pool) :
    scMatches c bName p = true ↔
      (inPoolMap c.additionalPools bName p.name = true ∨
        ((c.pools = [] ∨ inPoolMap c.pools bName p.name = true) ∧
         (∀ ar ∈ c.attributes, ∃ off,
            offerFor p.attributes ar.1 = some off ∧
            requestMatches ar.2 off = true) ∧
         (c.pools ≠ [] ∨ c.attributes ≠ [] ∨ c.additionalPools = []))) := by
  unfold scMatches
  by_cases h1 : inPoolMap c.additionalPools bName p.name
  · simp [h1]
  · rw [if_neg h1]
    simp only [h1, false_or, Bool.false_eq_true]
    by_cases h2 :
        (!c.additionalPools.isEmpty && c.pools.isEmpty && c.attributes.isEmpty)
          = true
    · rw [if_pos h2]
      simp only [Bool.and_eq_true, Bool.not_eq_true] at h2
      obtain ⟨⟨hadd, hpools⟩, hattrs⟩ := h2
      have hadd2 : c.additionalPools ≠ [] := by
        simpa [List.isEmpty_iff] using hadd
      simp [List.isEmpty_iff.mp hpools, List.isEmpty_iff.mp hattrs, hadd2]
    · rw [if_neg h2]
      simp only [Bool.and_eq_true, Bool.not_eq_true] at h2
      rw [Bool.and_eq_true, Bool.or_eq_true, attributesSatisfied_iff]
      constructor
      · rintro ⟨hp, hattr⟩
        refine ⟨?_, hattr, ?_⟩
        · rcases hp with hp | hp
          · exact Or.inl (List.isEmpty_iff.mp hp)
          · exact Or.inr hp
        · by_cases hpe : c.pools = []
          · by_cases hae : c.attributes = []
            · refine Or.inr (Or.inr ?_)
              by_contra hadd
              exact h2 ⟨⟨by simp [hadd], by simp [hpe]⟩, by simp [hae]⟩
            · exact Or.inr (Or.inl hae)
          · exact Or.inl hpe
      · rintro ⟨hp, hattr, -⟩
        refine ⟨?_, hattr⟩
        rcases hp with hp | hp
        · exact Or.inl (by simp [hp])
        · exact Or.inr hp

end Trident.Core

namespace Trident.Core

/-- Membership in the recorded match list, characterized elementwise. -/
theorem mem_matchedPairs (o : Orchestrator) (c : SCConfig)
    (bn pn : String) :
    (bn, pn) ∈ matchedPairs o c ↔
      ∃ b2 ∈ o.backends, (b2.state == BackendState.online) = true ∧
        ∃ p2 ∈ b2.pools, scMatches c b2.name p2 = true ∧
          (b2.name, p2.name) = (bn, pn) := by
  unfold matchedPairs
  rw [List.mem_flatten]
  constructor
  · rintro ⟨l, hl, hmeml⟩
    rw [List.mem_map] at hl
    obtain ⟨b2, hb2, rfl⟩ := hl
    by_cases hon : (b2.state == BackendState.online) = true
    · rw [if_pos hon] at hmeml
      rw [List.mem_map] at hmeml
      obtain ⟨p2, hp2, heq⟩ := hmeml
      rw [List.mem_filter] at hp2
      exact ⟨b2, hb2, hon, p2, hp2.1, hp2.2, heq⟩
    · rw [if_neg hon] at hmeml
      simp at hmeml
  · rintro ⟨b2, hb2, hon, p2, hp2, hmatch, heq⟩
    refine ⟨(b2.pools.filter fun p => scMatches c b2.name p).map fun p =>
      (b2.name, p.name), ?_, ?_⟩
    · rw [List.mem_map]
      exact ⟨b2, hb2, by rw [if_pos hon]⟩
    · rw [List.mem_map]
      exact ⟨p2, List.mem_filter.mpr ⟨hp2, hmatch⟩, heq⟩

end Trident.Core

/-- Claim C1 as amended: for every storage class `c` and every pool `p` on
backend `b` (backend names distinct, pool names distinct within `b`),
`AddStorageClass` records `c` as matching `p` exactly when `b` is Online
and the class match predicate holds: a pool listed in
`AdditionalPools[b]` is accepted; otherwise, if `Pools` is non-empty then
`p` must appear in `Pools[b]` and every attribute request must be satisfied
by an offer of `p`, with a class whose only non-empty field is
`AdditionalPools` accepting nothing further; a class with no Pools, no
AdditionalPools and no Attributes matches every (online) pool. -/
theorem Trident.Core.addStorageClass_records_matches
    (o : Orchestrator) (c : SCConfig) (b : OrchBackend) (p : Pool)
    (hboot : o.bootstrapped = true)
    (hnodupB : (o.backends.map OrchBackend.name).Nodup)
    (hnodupP : (b.pools.map Pool.name).Nodup)
    (hmem : b ∈ o.backends) (hp : p ∈ b.pools) :
    AddStorageClassOp o c =
      ((addStorageClassCore o c).1, .ok (matchedPairs o c)) ∧
    ((b.name, p.name) ∈ matchedPairs o c ↔
      (b.state = .online ∧
        (inPoolMap c.additionalPools b.name p.name = true ∨
          ((c.pools = [] ∨ inPoolMap c.pools b.name p.name = true) ∧
           (∀ ar ∈ c.attributes, ∃ off,
              offerFor p.attributes ar.1 = some off ∧
              requestMatches ar.2 off = true) ∧
           (c.pools ≠ [] ∨ c.attributes ≠ [] ∨ c.additionalPools = []))))) := by
  constructor
  · simp [AddStorageClassOp, addStorageClassCore, hboot]
  · rw [mem_matchedPairs]
    constructor
    · rintro ⟨b2, hb2, hon, p2, hp2, hmatch, heq⟩
      rw [Prod.mk.injEq] at heq
      obtain ⟨hbn, hpn⟩ := heq
      have hbb : b2 = b := List.inj_on_of_nodup_map hnodupB hb2 hmem hbn
      subst hbb
      have hpp : p2 = p := List.inj_on_of_nodup_map hnodupP hp2 hp hpn
      subst hpp
      refine ⟨by simpa using hon, ?_⟩
      exact (scMatches_iff c b2.name p2).mp hmatch
    · rintro ⟨hstate, hpred⟩
      refine ⟨b, hmem, by simp [hstate], p, hp, ?_, rfl⟩
      exact (scMatches_iff c b.name p).mpr hpred

/-- Claim C1, counterexample: the entirely empty storage class — which the
claimed predicate says matches every pool — is recorded with an empty match
list when the only backend is Offline, so AddStorageClass does not record
`c` as matching the offline backend's pool even though the predicate
holds. -/
theorem Trident.Core.addStorageClass_offline_not_recorded :
    scMatches cEmptyClass "b1" poolOff = true ∧
    backendOff ∈ oOffline.backends ∧
    poolOff ∈ backendOff.pools ∧
    backendOff.name = "b1" ∧ poolOff.name = "p1" ∧
    AddStorageClassOp oOffline cEmptyClass =
      ((addStorageClassCore oOffline cEmptyClass).1, .ok []) := by
  refine ⟨rfl, ?_, ?_, rfl, rfl, rfl⟩
  · simp [oOffline]
  · simp [backendOff]

/-- Witness for the amended C1 at concrete inputs: on the Online backend
`b1`, the class requesting IOPS 2000 is recorded as matching pool `p1`
(which offers IOPS 1000-3000) exactly per the predicate. -/
theorem Trident.Core.addStorageClass_records_matches_witness :
    AddStorageClassOp oOnline cAttr =
      ((addStorageClassCore oOnline cAttr).1, .ok (matchedPairs oOnline cAttr)) ∧
    ((backend1.name, pool1.name) ∈ matchedPairs oOnline cAttr ↔
      (backend1.state = .online ∧
        (inPoolMap cAttr.additionalPools backend1.name pool1.name = true ∨
          ((cAttr.pools = [] ∨
              inPoolMap cAttr.pools backend1.name pool1.name = true) ∧
           (∀ ar ∈ cAttr.attributes, ∃ off,
              offerFor pool1.attributes ar.1 = some off ∧
              requestMatches ar.2 off = true) ∧
           (cAttr.pools ≠ [] ∨ cAttr.attributes ≠ [] ∨
              cAttr.additionalPools = []))))) :=
  addStorageClass_records_matches oOnline cAttr backend1 pool1 rfl
    (by decide) (by decide) (by decide) (by decide)

namespace Trident.Core

/-- `find?` by name commutes with mapping a name-preserving function. -/
theorem find?_map_name {α : Type} (l : List α) (g : α → α) (nm : α → String)
    (key : String) (hg : ∀ a, nm (g a) = nm a) :
    (l.map g).find? (fun a => nm a == key) =
      (l.find? (fun a => nm a == key)).map g := by
  have hpred : ((fun a => nm a == key) ∘ g) = (fun a => nm a == key) := by
    funext a
    simp [Function.comp, hg a]
  rw [List.find?_map, hpred]

/-- Writing a backend state to the store makes the store report exactly
that state for the backend. -/
theorem getBackendState_storePut (s : StoreState) (n : String)
    (st : BackendState) :
    (storePutBackendState s n st).getBackendState n = some st := by
  unfold storePutBackendState StoreState.getBackendState
  by_cases hany : s.backends.any (fun p => p.1 == n) = true
  · rw [if_pos hany]
    simp only
    have hpred : ((fun p : String × BackendState => p.1 == n) ∘
        (fun p => if p.1 == n then (n, st) else p)) =
        (fun p : String × BackendState => p.1 == n) := by
      funext p
      by_cases hp : (p.1 == n) = true <;> simp [Function.comp, hp]
    rw [List.find?_map, hpred]
    obtain ⟨p0, hp0mem, hp0⟩ := List.any_eq_true.mp hany
    obtain ⟨p1, hfind1⟩ :=
      Option.isSome_iff_exists.mp
        ((List.find?_isSome
            (p := fun p : String × BackendState => p.1 == n)).mpr
          ⟨p0, hp0mem, hp0⟩)
    have hq1 : (p1.1 == n) = true :=
      List.find?_some (p := fun p : String × BackendState => p.1 == n) hfind1
    rw [hfind1]
    have hp1n : p1.1 = n := by simpa using hq1
    simp [hp1n]
  · rw [if_neg hany]
    simp only
    rw [List.find?_append]
    have hnone : s.backends.find? (fun p => p.1 == n) = none := by
      refine List.find?_eq_none.mpr fun x hx => ?_
      have := List.any_eq_false.mp (Bool.not_eq_true _ ▸ hany) x hx
      simpa using this
    rw [hnone]
    simp

end Trident.Core

/-- Claim C3: a backend that still holds at least one volume is not removed
by DeleteBackend but transitioned to Offline: it stays in memory with state
Offline, the volume map is untouched and every volume stays retrievable via
GetVolume, the Offline state is persisted, a new AddVolume placed through a
class whose recorded pools all live on that backend fails, and the backend
is removed from memory and from the persistent store exactly when its last
volume is deleted. -/
theorem Trident.Core.deleteBackend_offline_lifecycle
    (o : Orchestrator) (bName : String) (b : OrchBackend)
    (hboot : o.bootstrapped = true)
    (hfind : o.backends.find? (fun b2 => b2.name == bName) = some b)
    (hvols : b.volumeNames ≠ []) :
    (DeleteBackendOp o bName).2 = .ok () ∧
    (DeleteBackendOp o bName).1.backends.find? (fun b2 => b2.name == bName) =
      some { b with state := .offline } ∧
    (DeleteBackendOp o bName).1.volumes = o.volumes ∧
    (∀ n v, o.volumes.find? (fun w => w.config.name == n) = some v →
      GetVolumeOp (DeleteBackendOp o bName).1 n = .ok v) ∧
    (DeleteBackendOp o bName).1.store.getBackendState bName =
      some .offline ∧
    (∀ cfg scp,
      (DeleteBackendOp o bName).1.storageClasses.find?
          (fun x => x.1.name == cfg.storageClass) = some scp →
      (∀ bp ∈ scp.2, bp.1 = bName) →
      ∃ e, (AddVolumeOp (DeleteBackendOp o bName).1 cfg).2 = .error e) ∧
    (∀ vol,
      o.volumes.find? (fun w => w.config.name == vol.config.name) =
        some vol →
      vol.backendName = bName →
      (((DeleteVolumeOp (DeleteBackendOp o bName).1
              vol.config.name).1.backends.find?
            (fun b2 => b2.name == bName) = none ∧
        (DeleteVolumeOp (DeleteBackendOp o bName).1
            vol.config.name).1.store.getBackendState bName = none) ↔
        b.volumeNames.filter (fun n => n != vol.config.name) = [])) := by
  have hbeq : (b.name == bName) = true :=
    List.find?_some (p := fun b2 : OrchBackend => b2.name == bName) hfind
  have hgname : ∀ a : OrchBackend,
      ((if a.name == bName then { a with state := .offline } else a) :
        OrchBackend).name = a.name := by
    intro a
    by_cases h : (a.name == bName) = true <;> simp [h]
  have hcore : DeleteBackendOp o bName =
      ({ o with
          backends := o.backends.map fun b2 =>
            if b2.name == bName then { b2 with state := .offline } else b2
          store := storePutBackendState o.store bName .offline }, .ok ()) := by
    unfold DeleteBackendOp deleteBackendCore
    rw [if_pos hboot, hfind]
    simp only
    rw [if_neg (by rw [List.isEmpty_iff]; exact hvols)]
  have hbn : b.name = bName := by simpa using hbeq
  rw [hcore]
  have hoff : isOnlineBackend
      { o with
        backends := o.backends.map fun b2 =>
          if b2.name == bName then { b2 with state := .offline } else b2
        store := storePutBackendState o.store bName .offline } bName
      = false := by
    simp only [isOnlineBackend]
    rw [List.any_map]
    refine List.any_eq_false.mpr fun b2 hb2 => ?_
    by_cases h : (b2.name == bName) = true <;>
      simp [Function.comp, h]
  refine ⟨rfl, ?_, rfl, ?_, ?_, ?_, ?_⟩
  · rw [find?_map_name o.backends _ OrchBackend.name bName hgname, hfind]
    simp [hbn]
  · intro n v hv
    simp [GetVolumeOp, hboot, hv]
  · exact getBackendState_storePut o.store bName .offline
  · intro cfg scp hsc hall
    simp only at hsc
    unfold AddVolumeOp addVolumeCore
    rw [if_pos hboot]
    simp only
    rw [hsc]
    simp only
    by_cases hdup : (o.volumes.any fun v => v.config.name == cfg.name) = true
    · rw [if_pos hdup]
      exact ⟨_, rfl⟩
    · rw [if_neg hdup]
      have hnone : scp.2.find?
          (fun bp => isOnlineBackend
            { o with
              backends := o.backends.map fun b2 =>
                if b2.name == bName then { b2 with state := .offline }
                else b2
              store := storePutBackendState o.store bName .offline }
            bp.1) = none := by
        refine List.find?_eq_none.mpr fun bp hbp => ?_
        rw [hall bp hbp, hoff]
        simp
      rw [hnone]
      exact ⟨_, rfl⟩
  · intro vol hvfind hback
    unfold DeleteVolumeOp deleteVolumeCore
    rw [if_pos hboot]
    simp only
    rw [hvfind]
    simp only [hback]
    have hhname : ∀ a : OrchBackend,
        ((if a.name == bName then
            { a with
              volumeNames := a.volumeNames.filter fun n =>
                n != vol.config.name
              driver := driverDestroy a.driver vol.config.internalName }
          else a) : OrchBackend).name = a.name := by
      intro a
      by_cases h : (a.name == bName) = true <;> simp [h]
    rw [find?_map_name _ _ OrchBackend.name bName hhname,
      find?_map_name o.backends _ OrchBackend.name bName hgname, hfind]
    simp only [Option.map_some', hbeq, if_true]
    by_cases hrem :
        b.volumeNames.filter (fun n => n != vol.config.name) = []
    · rw [if_pos (by simp [hbeq, hrem])]
      refine iff_of_true ⟨?_, ?_⟩ hrem
      · refine List.find?_eq_none.mpr fun x hx => ?_
        have := (List.mem_filter.mp hx).2
        simpa using this
      · simp only [StoreState.getBackendState]
        rw [List.find?_eq_none.mpr]
        · rfl
        · intro x hx
          have := (List.mem_filter.mp hx).2
          simpa using this
    · rw [if_neg (by simp [hbeq, hrem])]
      refine iff_of_false ?_ hrem
      rintro ⟨ha, -⟩
      rw [List.find?_eq_none] at ha
      refine ha
        { b with
          state := .offline
          volumeNames := b.volumeNames.filter fun n => n != vol.config.name
          driver := driverDestroy b.driver vol.config.internalName } ?_ ?_
      · refine List.mem_map.mpr ⟨{ b with state := .offline }, ?_, ?_⟩
        · exact List.mem_map.mpr
            ⟨b, List.mem_of_find?_eq_some hfind, by simp [hbn]⟩
        · simp [hbn]
      · simp [hbn]

/-- Witness for C3 at concrete inputs: deleting backend `b1` while it holds
volume `src` offlines it, keeps the volume reachable, persists Offline,
fails a new AddVolume through the class matched only to `b1`, and removes
`b1` exactly when its last volume is deleted. -/
theorem Trident.Core.deleteBackend_offline_lifecycle_witness :
    (DeleteBackendOp oLive "b1").2 = .ok () ∧
    (DeleteBackendOp oLive "b1").1.backends.find?
        (fun b2 => b2.name == "b1") =
      some { backend1 with state := .offline } ∧
    (DeleteBackendOp oLive "b1").1.volumes = oLive.volumes ∧
    (∀ n v, oLive.volumes.find? (fun w => w.config.name == n) = some v →
      GetVolumeOp (DeleteBackendOp oLive "b1").1 n = .ok v) ∧
    (DeleteBackendOp oLive "b1").1.store.getBackendState "b1" =
      some .offline ∧
    (∀ cfg scp,
      (DeleteBackendOp oLive "b1").1.storageClasses.find?
          (fun x => x.1.name == cfg.storageClass) = some scp →
      (∀ bp ∈ scp.2, bp.1 = "b1") →
      ∃ e, (AddVolumeOp (DeleteBackendOp oLive "b1").1 cfg).2 = .error e) ∧
    (∀ vol,
      oLive.volumes.find? (fun w => w.config.name == vol.config.name) =
        some vol →
      vol.backendName = "b1" →
      (((DeleteVolumeOp (DeleteBackendOp oLive "b1").1
              vol.config.name).1.backends.find?
            (fun b2 => b2.name == "b1") = none ∧
        (DeleteVolumeOp (DeleteBackendOp oLive "b1").1
            vol.config.name).1.store.getBackendState "b1" = none) ↔
        backend1.volumeNames.filter (fun n => n != vol.config.name) = [])) :=
  deleteBackend_offline_lifecycle oLive "b1" backend1 rfl rfl (by decide)
